import Mathlib

/-!
Shallow embedding of the meme-coin-analyzer service worker (src/sw.js):
cache namespaces, strategy classification, the fetch interceptor for the
api and static strategies, the offline fallback synthesizer, the periodic
cache cleanup sweep, the background sync replay functions, the install
listener and the message listener.  Machine integers do not arise: sizes
are Nat, timestamps are Int milliseconds (JavaScript Date.now values).
-/

namespace MCA

/-! ## String primitives (JavaScript String.prototype operations) -/

/-- Character-list version of a starts-with test. -/
def charsStartWith : List Char → List Char → Bool
  | [], _ => true
  | _ :: _, [] => false
  | a :: as, b :: bs => a == b && charsStartWith as bs

/-- JavaScript url.startsWith(p) (and a regex of the shape caret-then-literal). -/
def strStartsWith (p s : String) : Bool :=
  charsStartWith p.toList s.toList

/-- Character-list version of a contains test: some suffix of the second list
starts with the first list. -/
def charsContain (pat : List Char) : List Char → Bool
  | [] => pat.isEmpty
  | c :: rest => charsStartWith pat (c :: rest) || charsContain pat rest

/-- JavaScript url.includes(pat): pat occurs somewhere in s. -/
def strContains (s pat : String) : Bool :=
  charsContain pat.toList s.toList

/-- JavaScript url.endsWith(pat). -/
def strEndsWith (s pat : String) : Bool :=
  charsStartWith pat.toList.reverse s.toList.reverse

/-- One decimal digit. -/
def isDigit (c : Char) : Bool := '0' ≤ c && c ≤ '9'

/-- JavaScript parseInt applied to a decimal string: leading whitespace is
skipped, an optional sign is read, then the longest run of leading digits;
none models NaN (no digit found). -/
def parseIntJS (s : String) : Option Int :=
  let cs := s.toList.dropWhile (fun c => c == ' ' || c == '\t' || c == '\n' || c == '\r')
  let signAndRest : Bool × List Char :=
    match cs with
    | '-' :: rest => (true, rest)
    | '+' :: rest => (false, rest)
    | other => (false, other)
  let digits := signAndRest.2.takeWhile isDigit
  if digits.isEmpty then none
  else
    let n : Nat := digits.foldl (fun acc c => acc * 10 + (c.toNat - '0'.toNat)) 0
    some (if signAndRest.1 then -(n : Int) else (n : Int))

/-! ## Data model: responses, caches, worker state -/

/-- Identifying fields of an analysis record pushed over the message channel
(sw.js cacheAnalysisData): the contract address key plus the rest of the
record, kept opaque. -/
structure AnalysisData where
  contractAddress : String
  payload : String
deriving DecidableEq

/-- A response body.  content is an opaque payload (network bodies, fixed
text bodies); offlineJson is the JSON object built by createOfflineFallback
(error message, offline flag, timestamp, url); analysisJson is
JSON.stringify of an analysis record (cacheAnalysisData). -/
inductive Body where
  | content : String → Body
  | offlineJson : String → Bool → Int → String → Body
  | analysisJson : AnalysisData → Body
deriving DecidableEq

/-- A response: status, body and a header list.  Header names are modelled
case-sensitively with the exact spellings sw.js uses. -/
structure Response where
  status : Nat
  body : Body
  headers : List (String × String)
deriving DecidableEq

/-- JavaScript Response.ok: status in the range 200..299. -/
def Response.ok (r : Response) : Bool :=
  200 ≤ r.status && r.status < 300

/-- headers.get(k): the value of the first header named k, none when absent
(JavaScript null). -/
def getHeader (r : Response) (k : String) : Option String :=
  (r.headers.find? (fun p => p.1 == k)).map (fun p => p.2)

/-- headers.set(k, v): replace every header named k, or append one. -/
def setHeader (hs : List (String × String)) (k v : String) : List (String × String) :=
  if hs.any (fun p => p.1 == k) then
    hs.map (fun p => if p.1 == k then (k, v) else p)
  else hs ++ [(k, v)]

/-- A cache namespace: entries keyed by request URL (GET requests only reach
the interceptor, so the URL identifies the request). -/
abbrev Cache := List (String × Response)

/-- cache.match(request) within one namespace: the entry stored under the URL. -/
def cacheMatch (c : Cache) (url : String) : Option Response :=
  (c.find? (fun e => e.1 == url)).map (fun e => e.2)

/-- cache.put(request, response): overwrite the entry for the URL. -/
def cachePut (c : Cache) (url : String) (r : Response) : Cache :=
  (url, r) :: c.filter (fun e => !(e.1 == url))

/-- The worker state: the two cache namespaces, CACHE_NAME (static assets)
and DATA_CACHE_NAME (dynamic API data). -/
structure SWState where
  staticCache : Cache
  dataCache : Cache
deriving DecidableEq

/-- caches.match(request): search the namespaces, static namespace first
(its cache is created first, at install). -/
def cachesMatch (st : SWState) (url : String) : Option Response :=
  match cacheMatch st.staticCache url with
  | some r => some r
  | none => cacheMatch st.dataCache url

/-! ## Strategy classifier (sw.js isAPIRequest, isStaticAsset, fetch listener) -/

/-- API_CACHE_PATTERNS: each regex is a caret anchor followed by a literal
(dots escaped), so pattern.test(url) holds exactly when the literal is a
prefix of the whole URL string. -/
def apiPatternLiterals : List String :=
  [ "https://api.dexscreener.com"
  , "https://api.etherscan.io"
  , "https://api.coingecko.com"
  , "https://api.twitter.com" ]

/-- sw.js isAPIRequest(url): some API_CACHE_PATTERNS regex matches. -/
def isAPIRequest (url : String) : Bool :=
  apiPatternLiterals.any (fun p => strStartsWith p url)

/-- The substrings isStaticAsset tests with url.includes. -/
def staticSubstrings : List String :=
  ["/assets/", "/icons/", ".css", ".js", ".png", ".jpg", ".svg"]

/-- sw.js isStaticAsset(url): the URL string contains one of the substrings
anywhere (query string included; a contains test, not a suffix test). -/
def isStaticAsset (url : String) : Bool :=
  staticSubstrings.any (fun pat => strContains url pat)

/-- The three request classes of the fetch listener. -/
inductive Strategy where
  | api
  | static
  | default
deriving DecidableEq

/-- The classification the fetch listener performs on a GET request:
isAPIRequest is tested first, then isStaticAsset, else the default handler. -/
def classify (url : String) : Strategy :=
  if isAPIRequest url then .api
  else if isStaticAsset url then .static
  else .default

/-! ## Fetch interceptor (sw.js handleAPIRequest, handleStaticRequest) -/

/-- The outcome of one fetch(request) call: the promise resolves with a
response (any status) or rejects (network error). -/
inductive FetchResult where
  | success : Response → FetchResult
  | failure : FetchResult
deriving DecidableEq

/-- The failure condition of the api strategy: a fetch rejection, or a
resolved response whose status is not ok (handleAPIRequest throws on it). -/
def fetchFailed : FetchResult → Bool
  | .failure => true
  | .success r => !r.ok

/-- sw.js addOfflineHeaders: copy the response, setting the three synthetic
headers marking a cache hit served while offline. -/
def addOfflineHeaders (r : Response) : Response :=
  { status := r.status
  , body := r.body
  , headers :=
      setHeader (setHeader (setHeader r.headers "X-Served-By" "ServiceWorker")
        "X-Cache-Status" "HIT") "X-Offline-Mode" "true" }

/-- sw.js createOfflineFallback: a synthesized 200 JSON response with the
offline flag set and the timestamp stamped at synthesis time (Date.now()). -/
def createOfflineFallback (url : String) (now : Int) : Response :=
  { status := 200
  , body := Body.offlineJson "You are offline. This is cached or demo data." true now url
  , headers := [("Content-Type", "application/json"), ("X-Offline-Mode", "true")] }

/-- A handler invocation result: the response returned to the page and the
worker state after the awaited cache writes. -/
structure HandleResult where
  response : Response
  state : SWState
deriving DecidableEq

/-- sw.js handleAPIRequest (network-first): on an ok network response, put a
clone into DATA_CACHE_NAME and return the live response; otherwise fall to
caches.match, annotating a hit with the offline headers; on a miss return
the offline fallback.  now is Date.now() at fallback synthesis. -/
def handleAPIRequest (url : String) (net : FetchResult) (st : SWState) (now : Int) :
    HandleResult :=
  match net with
  | .success r =>
    if r.ok then
      ⟨r, { st with dataCache := cachePut st.dataCache url r }⟩
    else
      match cachesMatch st url with
      | some cached => ⟨addOfflineHeaders cached, st⟩
      | none => ⟨createOfflineFallback url now, st⟩
  | .failure =>
    match cachesMatch st url with
    | some cached => ⟨addOfflineHeaders cached, st⟩
    | none => ⟨createOfflineFallback url now, st⟩

/-- A static-strategy invocation result, also counting how many network
fetches the handler performed. -/
structure StaticResult where
  response : Response
  state : SWState
  networkCalls : Nat
deriving DecidableEq

/-- sw.js handleStaticRequest (cache-first): a caches.match hit is returned
immediately with no network call; on a miss the network is fetched, an ok
response is cloned into CACHE_NAME and the live response returned either
way; a fetch rejection yields the fixed 404 text response. -/
def handleStaticRequest (url : String) (net : FetchResult) (st : SWState) :
    StaticResult :=
  match cachesMatch st url with
  | some cached => ⟨cached, st, 0⟩
  | none =>
    match net with
    | .success r =>
      if r.ok then
        ⟨r, { st with staticCache := cachePut st.staticCache url r }, 1⟩
      else ⟨r, st, 1⟩
    | .failure =>
      ⟨{ status := 404, body := Body.content "Asset not available offline", headers := [] }, st, 1⟩

/-! ## Periodic cache cleanup (sw.js setInterval callback) -/

/-- The TTL: one hour of milliseconds (cutoff = Date.now() - 60*60*1000). -/
def ttlMs : Int := 60 * 60 * 1000

/-- The stored capture timestamp the cleanup reads: the X-Cache-Timestamp
header when present, nonempty (the empty string is falsy) and parseable
(parseInt NaN compares false against the cutoff). -/
def capturedTimestamp (r : Response) : Option Int :=
  match getHeader r "X-Cache-Timestamp" with
  | none => none
  | some ts => if ts == "" then none else parseIntJS ts

/-- The deletion test of one cleanup iteration: timestamp is truthy and
parseInt(timestamp) < Date.now() - 3600000. -/
def shouldEvict (now : Int) (r : Response) : Bool :=
  match capturedTimestamp r with
  | none => false
  | some t => t < now - ttlMs

/-- One fault-free cleanup sweep over DATA_CACHE_NAME at time now: every
enumerated entry passing the deletion test is deleted, the rest remain. -/
def cacheCleanup (now : Int) (c : Cache) : Cache :=
  c.filter (fun e => !shouldEvict now e.2)

/-- A dynamic-namespace entry together with a fault flag: whether reading
(cache.match) or deleting (cache.delete) this entry throws during a sweep. -/
structure FaultEntry where
  key : String
  resp : Response
  faults : Bool
deriving DecidableEq

/-- What a sweep leaves behind: the remaining entries, whether the
try/catch around the whole loop logged an error, and whether the worker
process was terminated. -/
structure SweepOutcome where
  entriesAfter : List FaultEntry
  errorLogged : Bool
  processTerminated : Bool
deriving DecidableEq

/-- The cleanup sweep with possible per-entry faults.  The single try/catch
wraps the entire loop: the first faulting entry stops the iteration, so it
and every later entry are left untouched, the error is logged by the catch
and the process is never terminated.  Deletions awaited before the fault
persist. -/
def cacheCleanupWithFaults (now : Int) : List FaultEntry → SweepOutcome
  | [] => ⟨[], false, false⟩
  | e :: rest =>
    if e.faults then ⟨e :: rest, true, false⟩
    else if shouldEvict now e.resp then
      let o := cacheCleanupWithFaults now rest
      ⟨o.entriesAfter, o.errorLogged, false⟩
    else
      let o := cacheCleanupWithFaults now rest
      ⟨e :: o.entriesAfter, o.errorLogged, false⟩

/-! ## Background sync replay (sw.js syncTokenOutcomes, syncAnalysisData) -/

/-- A queued token outcome record (pendingOutcomes list). -/
structure OutcomeRecord where
  contractAddress : String
  payload : String
deriving DecidableEq

/-- The result of one syncTokenOutcomes pass: the persisted pending list
afterwards, and which records were posted successfully or logged as failed. -/
structure OutcomeSyncResult where
  pendingAfter : List OutcomeRecord
  succeeded : List OutcomeRecord
  failed : List OutcomeRecord
deriving DecidableEq

/-- sw.js syncTokenOutcomes: each pending record is POSTed in order; a
failed POST is caught, logged and the loop continues.  After the loop the
stored pending list is unconditionally replaced by the empty list
(setItem of the literal empty array), regardless of which POSTs failed.
post models the remote endpoint: whether the POST of a record succeeds. -/
def syncTokenOutcomes (post : OutcomeRecord → Bool) (pending : List OutcomeRecord) :
    OutcomeSyncResult :=
  { pendingAfter := []
  , succeeded := pending.filter (fun r => post r)
  , failed := pending.filter (fun r => !post r) }

/-- A persisted analysis-history record (memeAnalysisHistory list). -/
structure AnalysisRecord where
  id : String
  payload : String
  synced : Bool
deriving DecidableEq

/-- sw.js syncAnalysisData: the unsynced records are POSTed in order; on
success the record is marked synced in place, a failure is caught and the
record left unsynced; afterwards the whole updated history is persisted. -/
def syncAnalysisData (post : AnalysisRecord → Bool) (history : List AnalysisRecord) :
    List AnalysisRecord :=
  history.map (fun item =>
    if !item.synced && post item then { item with synced := true } else item)

/-! ## Install listener (sw.js install event) -/

/-- The outcome of cache.addAll(STATIC_CACHE_URLS): the batch resolves with
the fetched assets (the add is atomic), or rejects. -/
inductive AddAllResult where
  | resolved : List (String × Response) → AddAllResult
  | rejected : AddAllResult

/-- What the install listener produced: whether the promise handed to
event.waitUntil resolved (the install step succeeded), whether
self.skipWaiting() was reached, and whether the catch logged an error. -/
structure InstallOutcome where
  installCompleted : Bool
  skipWaitingCalled : Bool
  errorLogged : Bool
deriving DecidableEq

/-- sw.js install listener: open CACHE_NAME, addAll the manifest, then
skipWaiting; the trailing catch swallows any failure, so the waitUntil
promise resolves in every case and a failed addAll only skips skipWaiting
and logs. -/
def installListener (st : SWState) (res : AddAllResult) : InstallOutcome × SWState :=
  match res with
  | .resolved assets =>
    ( { installCompleted := true, skipWaitingCalled := true, errorLogged := false }
    , { st with staticCache := assets.foldl (fun c e => cachePut c e.1 e.2) st.staticCache } )
  | .rejected =>
    ( { installCompleted := true, skipWaitingCalled := false, errorLogged := true }, st )

/-! ## Message listener (sw.js message event) -/

/-- The data of an incoming message event: null (or undefined), whose
destructuring throws, or an object with an optional action tag and an
optional data payload. -/
inductive ClientMessage where
  | nullData : ClientMessage
  | obj : Option String → Option AnalysisData → ClientMessage
deriving DecidableEq

/-- How a synchronous run of the message listener ended: it completed (and
whether the default switch arm logged an unknown action), or it threw an
uncaught exception. -/
inductive ListenerOutcome where
  | completed : Bool → ListenerOutcome
  | threw : ListenerOutcome
deriving DecidableEq

/-- The four action tags the switch recognizes. -/
def knownActionTags : List String :=
  ["SKIP_WAITING", "CACHE_ANALYSIS", "QUEUE_OUTCOME", "GET_CACHE_INFO"]

/-- sw.js message listener: destructure event.data (throwing a TypeError
when it is null or undefined), then switch on the action tag; the four
known tags dispatch, anything else reaches the default arm which logs the
unknown action and ignores the message. -/
def messageListener : ClientMessage → ListenerOutcome
  | .nullData => .threw
  | .obj action _ =>
    match action with
    | none => .completed true
    | some s =>
      if s == "SKIP_WAITING" then .completed false
      else if s == "CACHE_ANALYSIS" then .completed false
      else if s == "QUEUE_OUTCOME" then .completed false
      else if s == "GET_CACHE_INFO" then .completed false
      else .completed true

/-- sw.js cacheAnalysisData: the response it builds for the dynamic
namespace — JSON.stringify of the record with a lone Content-Type header
(new Response defaults the status to 200). -/
def analysisResponse (a : AnalysisData) : Response :=
  { status := 200
  , body := Body.analysisJson a
  , headers := [("Content-Type", "application/json")] }

/-- sw.js cacheAnalysisData: put the built response into DATA_CACHE_NAME
under the analysis key derived from the contract address. -/
def cacheAnalysisData (st : SWState) (a : AnalysisData) : SWState :=
  { st with
    dataCache := cachePut st.dataCache ("/analysis/" ++ a.contractAddress) (analysisResponse a) }

/-! ## Definition following the words of the spec, for comparison (claim C8) -/

/-- Modelled from the spec, section 4.1, for comparison with the code
classifier: static when the URL path contains an assets or icons segment
or ends in a recognized static extension (style, script or image). -/
def specIsStatic (url : String) : Bool :=
  strContains url "/assets/" || strContains url "/icons/" ||
  [".css", ".js", ".png", ".jpg", ".svg"].any (fun e => strEndsWith url e)

/-! ## Helper lemmas -/

/-- A put entry is found again under its key. -/
theorem cacheMatch_cachePut (c : Cache) (k : String) (r : Response) :
    cacheMatch (cachePut c k r) k = some r := by
  simp [cacheMatch, cachePut, List.find?]

/-- Filtering twice with one predicate filters once. -/
theorem filter_self_idem {α : Type} (p : α → Bool) (l : List α) :
    (l.filter p).filter p = l.filter p := by
  induction l with
  | nil => rfl
  | cons a t ih => cases hpa : p a <;> simp [List.filter_cons, hpa, ih]

/-- The sweep never terminates the worker process: the catch around the
loop swallows every fault. -/
theorem cleanup_never_terminates (now : Int) (l : List FaultEntry) :
    (cacheCleanupWithFaults now l).processTerminated = false := by
  induction l with
  | nil => rfl
  | cons e rest ih =>
    by_cases hf : e.faults <;> by_cases hs : shouldEvict now e.resp <;>
      simp [cacheCleanupWithFaults, hf, hs]

/-- A sweep whose fault-free prefix is followed by a faulting entry:
the prefix is processed, the faulting entry and everything after it are
left untouched, and the error is logged. -/
theorem cleanupWithFaults_append_fault (now : Int) (pre : List FaultEntry) (e : FaultEntry)
    (rest : List FaultEntry) (hpre : ∀ x ∈ pre, x.faults = false) (he : e.faults = true) :
    cacheCleanupWithFaults now (pre ++ e :: rest)
      = ⟨pre.filter (fun x => !shouldEvict now x.resp) ++ e :: rest, true, false⟩ := by
  induction pre with
  | nil => simp [cacheCleanupWithFaults, he]
  | cons a t ih =>
    have ha : a.faults = false := hpre a (by simp)
    have ht : ∀ x ∈ t, x.faults = false := fun x hx => hpre x (by simp [hx])
    by_cases hs : shouldEvict now a.resp <;>
      simp [cacheCleanupWithFaults, ha, hs, ih ht, List.filter_cons]

/-- An object message never makes the listener throw: every branch of the
switch, the default arm included, completes. -/
theorem messageListener_obj_completes (a : Option String) (d : Option AnalysisData) :
    messageListener (.obj a d) ≠ .threw := by
  cases a with
  | none => simp [messageListener]
  | some s =>
    simp only [messageListener]
    split_ifs <;> simp

/-! ## Concrete inputs used by witnesses and counterexamples -/

/-- A worker state with both namespaces empty. -/
def emptyState : SWState := ⟨[], []⟩

/-- An ok network response with no X-Cache-Timestamp header. -/
def okResponse : Response := ⟨200, Body.content "payload", []⟩

/-- A response stamped X-Cache-Timestamp 0, far past the TTL at time
7200000 (two hours). -/
def staleResponse : Response := ⟨200, Body.content "old", [("X-Cache-Timestamp", "0")]⟩

/-- A worker-written response carrying no X-Cache-Timestamp header. -/
def unstampedResponse : Response := ⟨200, Body.content "fresh", []⟩

/-- A dynamic entry whose read does not fault. -/
def cleanEntry : FaultEntry := ⟨"a", okResponse, false⟩

/-- A dynamic entry whose read faults during the sweep. -/
def faultingEntry : FaultEntry := ⟨"b", okResponse, true⟩

/-- A dynamic entry past the TTL whose read does not fault. -/
def expiredEntry : FaultEntry := ⟨"c", staleResponse, false⟩

/-! ## The claims -/

/-- Claim C1 (code bug): the spec says a record whose POST fails is left in
the persisted pending list for the next replay trigger, and only successes
are marked synced or removed.  syncTokenOutcomes contradicts this: after
the loop it unconditionally stores the empty list, so a record whose POST
failed (here: every POST fails) is dropped from the pending list — even
though the per-record catch, the comment above the final store (clear
synced outcomes) and the sibling syncAnalysisData (third conjunct: a
failed analysis record stays, unsynced) all show the intended behavior. -/
theorem c1_failed_outcomes_dropped :
    (syncTokenOutcomes (fun _ => false) [⟨"0xabc", "pay"⟩]).failed = [⟨"0xabc", "pay"⟩] ∧
    (syncTokenOutcomes (fun _ => false) [⟨"0xabc", "pay"⟩]).pendingAfter = [] ∧
    syncAnalysisData (fun _ => false) [⟨"0xdef", "a", false⟩] = [⟨"0xdef", "a", false⟩] := by
  decide

/-- Claim C2, counterexample: with a rejected addAll the promise handed to
event.waitUntil still resolves (the trailing catch swallows the failure),
so the install step succeeds rather than failing as the claim states; only
skipWaiting is skipped and the error is logged. -/
theorem c2_install_counterexample :
    (installListener emptyState .rejected).1.installCompleted = true ∧
    (installListener emptyState .rejected).1.skipWaitingCalled = false ∧
    (installListener emptyState .rejected).1.errorLogged = true := by
  decide

/-- Claim C2 (amended): a population failure is caught and logged rather
than crashing the host page, but the install step itself still completes
successfully for every addAll outcome — the worker can go on to activate
even when the static namespace was not populated; on failure skipWaiting
is not called and the state is unchanged. -/
theorem c2_install_amended (st : SWState) (res : AddAllResult) :
    (installListener st res).1.installCompleted = true ∧
    (installListener st .rejected).1.skipWaitingCalled = false ∧
    (installListener st .rejected).1.errorLogged = true ∧
    (installListener st .rejected).2 = st := by
  cases res <;> simp [installListener]

/-- Claim C3, counterexample: the second entry is past the TTL (a
fault-free sweep deletes it, third conjunct), yet when the first entry
faults the sweep stops and the expired second entry survives — a fault on
one entry does abort the sweep for the remaining entries. -/
theorem c3_sweep_counterexample :
    shouldEvict 7200000 expiredEntry.resp = true ∧
    (cacheCleanupWithFaults 7200000 [faultingEntry, expiredEntry]).entriesAfter
      = [faultingEntry, expiredEntry] ∧
    cacheCleanup 7200000 [(expiredEntry.key, expiredEntry.resp)] = [] := by
  decide

/-- Claim C3 (amended): the try/catch wraps the whole loop, so the first
faulting entry aborts the sweep for every remaining entry (the fault-free
prefix is processed normally, the faulting entry and everything after it
are left untouched) and the fault is caught and logged at the sweep level;
the janitor never terminates the worker process. -/
theorem c3_sweep_amended (now : Int) (pre : List FaultEntry) (e : FaultEntry)
    (rest : List FaultEntry) (hpre : ∀ x ∈ pre, x.faults = false) (he : e.faults = true) :
    cacheCleanupWithFaults now (pre ++ e :: rest)
      = ⟨pre.filter (fun x => !shouldEvict now x.resp) ++ e :: rest, true, false⟩ ∧
    ∀ l, (cacheCleanupWithFaults now l).processTerminated = false :=
  ⟨cleanupWithFaults_append_fault now pre e rest hpre he,
   fun l => cleanup_never_terminates now l⟩

/-- Claim C3, witness: the amended statement at a one-entry fault-free
prefix, a faulting entry and an expired remainder. -/
theorem c3_sweep_amended_witness :
    (∀ x ∈ [cleanEntry], x.faults = false) ∧ faultingEntry.faults = true ∧
    (cacheCleanupWithFaults 7200000 ([cleanEntry] ++ faultingEntry :: [expiredEntry])
        = ⟨[cleanEntry].filter (fun x => !shouldEvict 7200000 x.resp)
            ++ faultingEntry :: [expiredEntry], true, false⟩ ∧
     ∀ l, (cacheCleanupWithFaults 7200000 l).processTerminated = false) :=
  ⟨by decide, by decide,
   c3_sweep_amended 7200000 [cleanEntry] faultingEntry [expiredEntry] (by decide) (by decide)⟩

/-- Claim C4: a janitor sweep at time now deletes every dynamic entry whose
stored capture timestamp t satisfies now - t > 3600000 milliseconds,
preserves every entry with now - t at most the TTL, and a second sweep run
immediately after (same now, no new entries) is a no-op. -/
theorem c4_janitor_ttl (now : Int) (c : Cache) (k : String) (r : Response) (t : Int)
    (hmem : (k, r) ∈ c) (hts : capturedTimestamp r = some t) :
    (now - t > ttlMs → (k, r) ∉ cacheCleanup now c) ∧
    (now - t ≤ ttlMs → (k, r) ∈ cacheCleanup now c) ∧
    cacheCleanup now (cacheCleanup now c) = cacheCleanup now c := by
  refine ⟨?_, ?_, filter_self_idem _ _⟩
  · intro hgt hmem2
    rw [cacheCleanup, List.mem_filter] at hmem2
    have h2 := hmem2.2
    simp [shouldEvict, hts, ttlMs] at h2
    rw [show ttlMs = 3600000 from rfl] at hgt
    omega
  · intro hle
    rw [cacheCleanup, List.mem_filter]
    refine ⟨hmem, ?_⟩
    simp [shouldEvict, hts, ttlMs]
    rw [show ttlMs = 3600000 from rfl] at hle
    omega

/-- Claim C4, witness: an entry stamped 0 in a one-entry cache, swept at
time 7200000. -/
theorem c4_janitor_ttl_witness :
    ("k", staleResponse) ∈ [("k", staleResponse)] ∧
    capturedTimestamp staleResponse = some 0 ∧
    ((7200000 - 0 > ttlMs → ("k", staleResponse) ∉ cacheCleanup 7200000 [("k", staleResponse)]) ∧
     (7200000 - 0 ≤ ttlMs → ("k", staleResponse) ∈ cacheCleanup 7200000 [("k", staleResponse)]) ∧
     cacheCleanup 7200000 (cacheCleanup 7200000 [("k", staleResponse)])
       = cacheCleanup 7200000 [("k", staleResponse)]) :=
  ⟨by decide, by decide,
   c4_janitor_ttl 7200000 [("k", staleResponse)] "k" staleResponse 0 (by decide) (by decide)⟩

/-- Claim C5: for an api-classified request whose network fetch fails
(rejection or non-2xx) with no cached entry in either namespace, the
returned response has status 200 and the offline JSON body with the
offline flag true and the timestamp stamped exactly at synthesis time. -/
theorem c5_offline_fallback (url : String) (net : FetchResult) (st : SWState) (now : Int)
    (hfail : fetchFailed net = true) (hmiss : cachesMatch st url = none) :
    (handleAPIRequest url net st now).response.status = 200 ∧
    (handleAPIRequest url net st now).response.body
      = Body.offlineJson "You are offline. This is cached or demo data." true now url := by
  cases net with
  | failure => simp [handleAPIRequest, hmiss, createOfflineFallback]
  | success r =>
    have hok : r.ok = false := by simpa [fetchFailed] using hfail
    simp [handleAPIRequest, hok, hmiss, createOfflineFallback]

/-- Claim C5, witness: a rejected fetch against the empty state. -/
theorem c5_offline_fallback_witness :
    fetchFailed .failure = true ∧
    cachesMatch emptyState "https://api.coingecko.com/price" = none ∧
    ((handleAPIRequest "https://api.coingecko.com/price" .failure emptyState 1234).response.status
        = 200 ∧
     (handleAPIRequest "https://api.coingecko.com/price" .failure emptyState 1234).response.body
        = Body.offlineJson "You are offline. This is cached or demo data." true 1234
            "https://api.coingecko.com/price") :=
  ⟨by decide, by decide,
   c5_offline_fallback "https://api.coingecko.com/price" .failure emptyState 1234
     (by decide) (by decide)⟩

/-- Claim C6: for an api-classified request whose network fetch succeeds
with an ok status, the handler returns the live network response and the
dynamic namespace afterwards holds a copy under the request URL equal to
that response (so the cached body equals the network body). -/
theorem c6_write_through (url : String) (r : Response) (st : SWState) (now : Int)
    (hok : r.ok = true) :
    (handleAPIRequest url (.success r) st now).response = r ∧
    cacheMatch (handleAPIRequest url (.success r) st now).state.dataCache url = some r := by
  simp [handleAPIRequest, hok, cacheMatch_cachePut]

/-- Claim C6, witness: a 200 response cached through against the empty
state. -/
theorem c6_write_through_witness :
    okResponse.ok = true ∧
    ((handleAPIRequest "https://api.coingecko.com/ping" (.success okResponse) emptyState 0).response
        = okResponse ∧
     cacheMatch (handleAPIRequest "https://api.coingecko.com/ping" (.success okResponse)
         emptyState 0).state.dataCache "https://api.coingecko.com/ping" = some okResponse) :=
  ⟨by decide,
   c6_write_through "https://api.coingecko.com/ping" okResponse emptyState 0 (by decide)⟩

/-- Claim C7, counterexample: the listener destructures event.data before
any check, so a message whose data is null — its action tag certainly
missing — throws a TypeError and the handler does not complete, against
the claim that a message with a missing action tag is logged and ignored
without throwing and that every handler run completes. -/
theorem c7_null_message_counterexample : messageListener .nullData = .threw := by
  decide

/-- Claim C7 (amended): for a message whose data is an object, an unknown
or missing action tag reaches the default switch arm, which logs it and
ignores the message, and the listener completes for every object message;
a message whose data is null or undefined, however, throws in the
destructuring and the handler run does not complete. -/
theorem c7_message_amended (a : Option String) (d : Option AnalysisData)
    (h : ∀ s ∈ a, s ∉ knownActionTags) :
    messageListener (.obj a d) = .completed true ∧
    (∀ a2 d2, messageListener (.obj a2 d2) ≠ .threw) ∧
    messageListener .nullData = .threw := by
  refine ⟨?_, fun a2 d2 => messageListener_obj_completes a2 d2, rfl⟩
  cases a with
  | none => rfl
  | some s =>
    have hs : s ∉ knownActionTags := h s rfl
    simp only [knownActionTags, List.mem_cons, List.not_mem_nil, or_false, not_or] at hs
    obtain ⟨h1, h2, h3, h4⟩ := hs
    simp [messageListener, h1, h2, h3, h4]

/-- Claim C7, witness: the amended statement at an unrecognized action
tag. -/
theorem c7_message_amended_witness :
    (∀ s ∈ (some "BOGUS" : Option String), s ∉ knownActionTags) ∧
    (messageListener (.obj (some "BOGUS") none) = .completed true ∧
     (∀ a2 d2, messageListener (.obj a2 d2) ≠ .threw) ∧
     messageListener .nullData = .threw) :=
  ⟨by intro s hs; simp only [Option.mem_def, Option.some.injEq] at hs; subst hs; decide,
   c7_message_amended (some "BOGUS") none
     (by intro s hs; simp only [Option.mem_def, Option.some.injEq] at hs; subst hs; decide)⟩

/-- Claim C8, counterexample: the code classifies by substring and prefix
tests over the whole URL string, not by path segments, extension suffixes
or host matches.  A .json URL is classified static because it contains the
substring .js, though it neither has an assets/icons segment nor ends in a
recognized static extension (the spec-following predicate rejects it); and
a URL whose host merely starts with a provider domain is classified api. -/
theorem c8_classifier_counterexample :
    classify "https://example.com/data.json" = .static ∧
    specIsStatic "https://example.com/data.json" = false ∧
    classify "https://api.coingecko.com.evil.example/price" = .api := by
  decide

/-- Claim C8 (amended): the classifier is a pure total function returning
exactly one of the three strategies; it returns api exactly when one of
the four provider literals is a prefix of the URL string, static exactly
when no provider literal matches and the URL string contains one of the
seven fixed substrings anywhere, and default exactly when neither test
fires. -/
theorem c8_classifier_amended (url : String) :
    (classify url = .api ∨ classify url = .static ∨ classify url = .default) ∧
    (classify url = .api ↔ isAPIRequest url = true) ∧
    (classify url = .static ↔ (isAPIRequest url = false ∧ isStaticAsset url = true)) ∧
    (classify url = .default ↔ (isAPIRequest url = false ∧ isStaticAsset url = false)) := by
  unfold classify
  by_cases ha : isAPIRequest url <;> by_cases hs : isStaticAsset url <;> simp [ha, hs]

/-- Claim C9: once a first static-classified request has populated the
static namespace (network success, ok status, at a previously uncached
URL), a second identical request performs zero network calls, returns the
cached response unchanged and leaves the state unchanged, whatever the
network would have answered. -/
theorem c9_cache_first_idem (url : String) (st : SWState) (r : Response) (net2 : FetchResult)
    (hmiss : cachesMatch st url = none) (hok : r.ok = true) :
    (handleStaticRequest url net2 ((handleStaticRequest url (.success r) st).state)).networkCalls
      = 0 ∧
    (handleStaticRequest url net2 ((handleStaticRequest url (.success r) st).state)).response
      = r ∧
    (handleStaticRequest url net2 ((handleStaticRequest url (.success r) st).state)).state
      = (handleStaticRequest url (.success r) st).state := by
  have h1 : (handleStaticRequest url (.success r) st).state
      = { st with staticCache := cachePut st.staticCache url r } := by
    simp [handleStaticRequest, hmiss, hok]
  have h2 : cachesMatch { st with staticCache := cachePut st.staticCache url r } url = some r := by
    simp [cachesMatch, cacheMatch_cachePut]
  rw [h1]
  simp [handleStaticRequest, h2]

/-- Claim C9, witness: a manifest icon URL, first fetched successfully,
then requested again while the network would reject. -/
theorem c9_cache_first_idem_witness :
    cachesMatch emptyState "/assets/icons/icon-192x192.png" = none ∧
    okResponse.ok = true ∧
    ((handleStaticRequest "/assets/icons/icon-192x192.png" .failure
        ((handleStaticRequest "/assets/icons/icon-192x192.png" (.success okResponse)
          emptyState).state)).networkCalls = 0 ∧
     (handleStaticRequest "/assets/icons/icon-192x192.png" .failure
        ((handleStaticRequest "/assets/icons/icon-192x192.png" (.success okResponse)
          emptyState).state)).response = okResponse ∧
     (handleStaticRequest "/assets/icons/icon-192x192.png" .failure
        ((handleStaticRequest "/assets/icons/icon-192x192.png" (.success okResponse)
          emptyState).state)).state
       = (handleStaticRequest "/assets/icons/icon-192x192.png" (.success okResponse)
          emptyState).state) :=
  ⟨by decide, by decide,
   c9_cache_first_idem "/assets/icons/icon-192x192.png" emptyState okResponse .failure
     (by decide) (by decide)⟩

/-- Claim C10, counterexample: the api write-through stores the upstream
response with its headers verbatim, so a worker-written dynamic entry CAN
carry an X-Cache-Timestamp header — it suffices that the upstream server
sent one — and a later sweep then deletes that worker-written entry,
against the claim that every worker-written entry is preserved by every
sweep for all time. -/
theorem c10_stamped_upstream_counterexample :
    (handleAPIRequest "https://api.coingecko.com/p" (.success staleResponse)
        emptyState 0).state.dataCache = [("https://api.coingecko.com/p", staleResponse)] ∧
    getHeader staleResponse "X-Cache-Timestamp" = some "0" ∧
    cacheCleanup 7200000 [("https://api.coingecko.com/p", staleResponse)] = [] := by
  decide

/-- Claim C10 (amended): the worker itself never attaches an
X-Cache-Timestamp header — a CACHE_ANALYSIS write carries none (second
conjunct) — and the sweep deletes only entries whose header is present,
nonempty and parses to a timestamp older than the cutoff (third conjunct),
so every dynamic entry without such a parseable capture timestamp is
preserved by every sweep at every time (first conjunct).  An api
write-through entry carries exactly the upstream headers, so for it this
guarantee holds whenever no stale parseable header came from upstream;
the absence of the header is sufficient for preservation but not
necessary, since an empty or unparseable value also never evicts. -/
theorem c10_preservation_amended (now : Int) (c : Cache) (k : String) (r : Response)
    (hno : capturedTimestamp r = none) (hmem : (k, r) ∈ c) :
    (k, r) ∈ cacheCleanup now c ∧
    (∀ a : AnalysisData, getHeader (analysisResponse a) "X-Cache-Timestamp" = none) ∧
    (∀ now2 r2, shouldEvict now2 r2 = true →
      ∃ t, capturedTimestamp r2 = some t ∧ t < now2 - ttlMs) := by
  refine ⟨?_, fun a => rfl, ?_⟩
  · rw [cacheCleanup, List.mem_filter]
    exact ⟨hmem, by simp [shouldEvict, hno]⟩
  · intro now2 r2 h
    unfold shouldEvict at h
    cases hct : capturedTimestamp r2 with
    | none => rw [hct] at h; simp at h
    | some t =>
      rw [hct] at h
      exact ⟨t, rfl, by simpa using h⟩

/-- Claim C10, witness: an unstamped worker-written entry survives a sweep
two hours later. -/
theorem c10_preservation_amended_witness :
    capturedTimestamp unstampedResponse = none ∧
    ("k", unstampedResponse) ∈ [("k", unstampedResponse)] ∧
    (("k", unstampedResponse) ∈ cacheCleanup 7200000 [("k", unstampedResponse)] ∧
     (∀ a : AnalysisData, getHeader (analysisResponse a) "X-Cache-Timestamp" = none) ∧
     (∀ now2 r2, shouldEvict now2 r2 = true →
       ∃ t, capturedTimestamp r2 = some t ∧ t < now2 - ttlMs)) :=
  ⟨by decide, by decide,
   c10_preservation_amended 7200000 [("k", unstampedResponse)] "k" unstampedResponse
     (by decide) (by decide)⟩

end MCA
